import Mathlib

/-!
Shallow embedding of the two batch-conversion utilities of the repository
`dev-utils`: `src/docx_to_md.py` (pipeline 1, docx → Markdown via pandoc)
and `src/md2pdf.py` (pipeline 2, Markdown → PDF via a headless browser).

External collaborators (the filesystem listing, pandoc, the markdown
library, the jinja2 template engine, the browser binaries) are modelled as
components of an environment record; the control flow, path derivations,
message emission and success/failure accounting are translated from the
Python source.
-/

/-- Characters of a path after the last `/` (empty result for a trailing
slash), the list-level core of Python's `os.path.basename`. -/
def takeAfterLastSlash (cs : List Char) : List Char :=
  (cs.reverse.takeWhile (fun c => c != '/')).reverse

/-- Python `os.path.basename`, as used on the scan results in
`convert_md_to_pdf` (line 248 of `src/md2pdf.py`). -/
def pyBasename (s : String) : String :=
  String.mk (takeAfterLastSlash s.data)

/-- Root (first component) of Python's `os.path.splitext` on a bare file
name (no `/`, the only way the repository calls it: on `os.listdir`
entries in pipeline 1 and on `os.path.basename` results in pipeline 2).
Python splits at the last dot unless every character before that dot is
itself a dot (leading-dot files keep their name whole). -/
def splitextRootCs (cs : List Char) : List Char :=
  if (cs.reverse.takeWhile (fun c => c != '.')).length = cs.reverse.length then cs
  else if (cs.reverse.drop ((cs.reverse.takeWhile (fun c => c != '.')).length + 1)).any
      (fun c => c != '.') then
    (cs.reverse.drop ((cs.reverse.takeWhile (fun c => c != '.')).length + 1)).reverse
  else cs

/-- String wrapper for `splitextRootCs`: `os.path.splitext(name)[0]`. -/
def splitextRootStr (s : String) : String :=
  String.mk (splitextRootCs s.data)

/-- Python `os.path.join` for two components: an absolute second argument
replaces the first, otherwise a `/` separator is inserted unless the first
component is empty or already ends with `/`. -/
def pyJoin (a b : String) : String :=
  if b.data.head? = some '/' then b
  else if a.data = [] then b
  else if a.data.getLast? = some '/' then String.mk (a.data ++ b.data)
  else String.mk (a.data ++ '/' :: b.data)

/-- Python `str.endswith`. -/
def pyEndsWith (s suf : String) : Bool :=
  List.isSuffixOf suf.data s.data

/-- Pipeline 1 output path (line 39 of `src/docx_to_md.py`):
`os.path.join(directory, base_name + ".md")`. -/
def docxOutPath (directory filename : String) : String :=
  pyJoin directory (splitextRootStr filename ++ ".md")

/-- Pipeline 2 output path (lines 248 to 249 of `src/md2pdf.py`):
`os.path.join(output_dir, splitext(basename(md_file_path))[0] + ".pdf")`.
Only the base name of the input survives: the scan subdirectory is
discarded. -/
def pdfOutPath (output_dir md_file_path : String) : String :=
  pyJoin output_dir (splitextRootStr (pyBasename md_file_path) ++ ".pdf")

-- sanity examples (concrete evaluation)
example : pyBasename "notes/x.md" = "x.md" := by decide
example : splitextRootStr "report.docx" = "report" := by decide
example : pdfOutPath "out" "notes/x.md" = "out/x.pdf" := by decide
example : docxOutPath "docs" "report.docx" = "docs/report.md" := by decide
example : splitextRootStr ".docx" = ".docx" := by decide
example : splitextRootStr "a.b.c" = "a.b" := by decide
example : pyEndsWith "report.docx" ".docx" = true := by decide
example : pyEndsWith "report.txt" ".docx" = false := by decide

/-! ## Pipeline 1: `src/docx_to_md.py` -/

/-- Console messages printed by pipeline 1, tagged with their payloads. -/
inductive Msg1 where
  | scanning (dir : String)
  | converting (src dst : String)
  | converted (filename : String)
  | convError (filename : String)
  | notFound
  | pypandocMissing
  | pandocMissing
  deriving DecidableEq

/-- Environment of pipeline 1: the behaviour of its external
collaborators.  `listing` is the result of `os.listdir(directory)`;
`convertOk p` tells whether `pypandoc.convert_file` on source path `p`
returns normally (`false` = it raises); `pypandocImportable` tells
whether `import pypandoc` succeeds; `pandocOk` tells whether
`pypandoc.get_pandoc_version()` returns without raising `OSError`. -/
structure Env1 where
  pypandocImportable : Bool
  pandocOk : Bool
  listing : List String
  convertOk : String → Bool

/-- Body of the `for filename in os.listdir(directory)` loop of
`convert_docx_to_markdown` (lines 32 to 50 of `src/docx_to_md.py`).  The
accumulator carries the printed messages, the number of
`pypandoc.convert_file` invocations, and the `files_found` flag. -/
def docxStep (env : Env1) (directory : String) (acc : List Msg1 × Nat × Bool)
    (filename : String) : List Msg1 × Nat × Bool :=
  if pyEndsWith filename ".docx" then
    if env.convertOk (pyJoin directory filename) then
      (acc.1 ++ [Msg1.converting (pyJoin directory filename) (docxOutPath directory filename),
        Msg1.converted filename], acc.2.1 + 1, true)
    else
      (acc.1 ++ [Msg1.converting (pyJoin directory filename) (docxOutPath directory filename),
        Msg1.convError filename], acc.2.1 + 1, true)
  else acc

/-- `convert_docx_to_markdown` (lines 22 to 53 of `src/docx_to_md.py`):
prints the scanning banner, iterates over the directory listing
converting every `.docx` entry, and prints the not-found message when
the flag stayed false.  Returns (messages, conversion attempts,
`files_found`). -/
def convert_docx_to_markdown (env : Env1) (directory : String) : List Msg1 × Nat × Bool :=
  let r := env.listing.foldl (docxStep env directory) ([Msg1.scanning directory], 0, false)
  if r.2.2 then r else (r.1 ++ [Msg1.notFound], r.2.1, r.2.2)

/-- The `__main__` entry of `src/docx_to_md.py` together with its
module-level import guard (lines 4 to 8 and 55 to 60): exit status 1 when
`pypandoc` cannot be imported or `ensure_pandoc_installed` finds pandoc
unreachable, otherwise run the conversion and fall off the end of the
script (exit status 0).  Returns (exit status, messages). -/
def docx_to_md_main (env : Env1) (dir : String) : Nat × List Msg1 :=
  if env.pypandocImportable then
    if env.pandocOk then (0, (convert_docx_to_markdown env dir).1)
    else (1, [Msg1.pandocMissing])
  else (1, [Msg1.pypandocMissing])

example :
    convert_docx_to_markdown ⟨true, true, ["a.docx", "b.txt"], fun _ => true⟩ "d" =
      ([Msg1.scanning "d", Msg1.converting "d/a.docx" "d/a.md", Msg1.converted "a.docx"],
        1, true) := by decide

example :
    convert_docx_to_markdown ⟨true, true, ["b.txt"], fun _ => true⟩ "d" =
      ([Msg1.scanning "d", Msg1.notFound], 0, false) := by decide

/-! ## Pipeline 2: `src/md2pdf.py` -/

/-- Console messages printed by pipeline 2. -/
inductive Msg2 where
  | chromeOkMsg (path : String)
  | chromeFailed
  | firefoxOkMsg (path : String)
  | firefoxFailed
  | noBrowser
  | convertedMsg (file pdf : String)
  | errorConverting (file : String)
  | foundMsg (n : Nat) (dir : String)
  | summary (s f : Nat)
  deriving DecidableEq

/-- Observable events of pipeline 2: directory creation calls
(`os.makedirs(..., exist_ok=True)`), PDF file writes performed by the
browser subprocess, and printed messages. -/
inductive Ev where
  | mkdirs (dir : String)
  | writePdf (path content : String)
  | msg (m : Msg2)
  deriving DecidableEq

/-- Python exceptions that escape `create_pdf_from_html`. -/
inductive Exn where
  | nameError (id : String)
  deriving DecidableEq

/-- Environment of pipeline 2.  `pathExists` is `os.path.exists`;
`chromeOk` tells whether the headless-Chrome subprocess exits with
status 0; `firefoxInstalled` is what `shutil.which("firefox")` would
report and `firefoxOk` what the Firefox subprocess would do (the source
can reach neither: see `create_pdf_from_html`); `readOk p` tells whether
opening and reading file `p` succeeds; `renderOk p` tells whether the
`markdown.markdown` and jinja2 rendering calls on `p`'s content return
normally; `content` is the text of each markdown file; `mdRender` is the
external `markdown.markdown` with the fixed extension list; `tplRender`
is `jinja2.Template(HTML_TEMPLATE).render` applied to title and content;
`rglob` is `Path(folder).rglob('*.md')` as a list of path strings;
`mdImportable` tells whether `import markdown; import jinja2` succeeds
and `pipInstallOk` whether the `pip install` fallback subprocess
(`subprocess.check_call`) succeeds. -/
structure Env2 where
  pathExists : String → Bool
  chromeOk : Bool
  firefoxInstalled : Bool
  firefoxOk : Bool
  readOk : String → Bool
  renderOk : String → Bool
  content : String → String
  mdRender : String → String
  tplRender : String → String → String
  rglob : String → List String
  mdImportable : Bool
  pipInstallOk : Bool

/-- The fixed Chrome candidate binary paths (lines 190 to 194 of
`src/md2pdf.py`). -/
def chrome_paths : List String :=
  ["/Applications/Google Chrome.app/Contents/MacOS/Google Chrome",
   "/usr/bin/google-chrome",
   "/usr/bin/chromium"]

/-- The HTML produced for one markdown file (lines 266 to 273 of
`src/md2pdf.py`): the external markdown renderer applied to the file
content, substituted into the fixed template with the base name as
title. -/
def renderedHtml (env : Env2) (p : String) : String :=
  env.tplRender (splitextRootStr (pyBasename p)) (env.mdRender (env.content p))

/-- `create_pdf_from_html` (lines 184 to 237 of `src/md2pdf.py`).
Chrome branch: the first existing candidate path is run headless; on
success the subprocess writes the PDF and the function prints and
returns `True`; a subprocess failure is caught and logged.  Firefox
branch: the source evaluates `shutil.which("firefox")`, but
`src/md2pdf.py` never imports `shutil`, so this expression raises
`NameError: name 'shutil' is not defined`; `NameError` is not in the
branch's `except (subprocess.SubprocessError, FileNotFoundError)`
clause, so it propagates out of the function.  Consequently the
environment's `firefoxInstalled` and `firefoxOk` fields are never
consulted, the final failure message is never printed and the function
can never return `False`: it either returns `True` or raises. -/
def create_pdf_from_html (env : Env2) (html_content output_path : String) :
    List Ev × Except Exn Bool :=
  match chrome_paths.find? env.pathExists with
  | some _ =>
    if env.chromeOk then
      ([Ev.writePdf output_path html_content, Ev.msg (Msg2.chromeOkMsg output_path)],
        Except.ok true)
    else
      ([Ev.msg Msg2.chromeFailed], Except.error (Exn.nameError "shutil"))
  | none => ([], Except.error (Exn.nameError "shutil"))

/-- `convert_md_to_pdf` (lines 239 to 284 of `src/md2pdf.py`): create
the output directory (idempotently), derive the PDF path from the base
name, read the file, render it to HTML, hand it to
`create_pdf_from_html`; every exception raised inside the `try` block
(unreadable file, rendering error, or the `NameError` escaping
`create_pdf_from_html`) is caught by the `except Exception` clause,
logged, and turned into the return value `False`.  The
`os.makedirs` call is modelled as succeeding. -/
def convert_md_to_pdf (env : Env2) (md_file_path output_dir : String) : List Ev × Bool :=
  let pdf_path := pdfOutPath output_dir md_file_path
  let tail :=
    if env.readOk md_file_path then
      if env.renderOk md_file_path then
        match create_pdf_from_html env (renderedHtml env md_file_path) pdf_path with
        | (evs, Except.ok true) =>
          (evs ++ [Ev.msg (Msg2.convertedMsg (pyBasename md_file_path) pdf_path)], true)
        | (evs, Except.ok false) => (evs, false)
        | (evs, Except.error _) =>
          (evs ++ [Ev.msg (Msg2.errorConverting md_file_path)], false)
      else ([Ev.msg (Msg2.errorConverting md_file_path)], false)
    else ([Ev.msg (Msg2.errorConverting md_file_path)], false)
  (Ev.mkdirs output_dir :: tail.1, tail.2)

/-- One iteration of the conversion loop of `scan_and_convert`
(lines 301 to 305 of `src/md2pdf.py`): exactly one of the two counters
is incremented per file. -/
def scanStep (env : Env2) (output_dir : String) (acc : List Ev × Nat × Nat)
    (p : String) : List Ev × Nat × Nat :=
  let r := convert_md_to_pdf env p output_dir
  if r.2 then (acc.1 ++ r.1, acc.2.1 + 1, acc.2.2)
  else (acc.1 ++ r.1, acc.2.1, acc.2.2 + 1)

/-- `scan_and_convert` (lines 286 to 308 of `src/md2pdf.py`): collect
the recursive scan results, print how many were found, convert each in
order, print the summary and return (successful, failed). -/
def scan_and_convert (env : Env2) (folder_path output_dir : String) :
    List Ev × Nat × Nat :=
  let md_files := env.rglob folder_path
  let r := md_files.foldl (scanStep env output_dir)
    ([Ev.msg (Msg2.foundMsg md_files.length folder_path)], 0, 0)
  (r.1 ++ [Ev.msg (Msg2.summary r.2.1 r.2.2)], r.2.1, r.2.2)

/-- The module import guard together with the `__main__` entry of
`src/md2pdf.py` (lines 9 to 16 and 310 to 320): when the markdown and
jinja2 imports fail and the `pip install` subprocess also fails,
`subprocess.check_call` raises `CalledProcessError` at import time and
the process dies with a non-zero status before any scanning; in every
other case the scan runs and the script falls off the end (exit
status 0).  Returns (exit status, successful, failed). -/
def md2pdf_main (env : Env2) (top_dir out_dir : String) : Nat × Nat × Nat :=
  if env.mdImportable || env.pipInstallOk then
    (0, (scan_and_convert env top_dir out_dir).2)
  else (1, 0, 0)

/-- The per-file success condition: `convert_md_to_pdf` returns `True`
exactly when the read succeeds, the rendering succeeds, some Chrome
candidate path exists and the Chrome subprocess succeeds. -/
def fileOk (env : Env2) (p : String) : Bool :=
  env.readOk p && env.renderOk p && (chrome_paths.find? env.pathExists).isSome && env.chromeOk

/-- Interpretation of an event on an abstract file system mapping paths
to file contents: a PDF write replaces whatever was at its path. -/
def applyEv (fs : String → Option String) (e : Ev) : String → Option String :=
  match e with
  | Ev.writePdf p c => fun q => if q = p then some c else fs q
  | _ => fs

/-- Replay of an event trace on an abstract file system. -/
def applyFs (t : List Ev) (fs : String → Option String) : String → Option String :=
  t.foldl applyEv fs

/-- Recogniser for directory-creation events. -/
def isMkdirs (e : Ev) : Bool :=
  match e with
  | Ev.mkdirs _ => true
  | _ => false

/-- Recogniser for PDF-write events. -/
def isWritePdf (e : Ev) : Bool :=
  match e with
  | Ev.writePdf _ _ => true
  | _ => false

/-- Recogniser for the messages that report a warning or a failure
(`Chrome conversion failed`, `Firefox conversion failed`, the
install-a-browser message, and the per-file error line). -/
def isFailureMsg (m : Msg2) : Bool :=
  match m with
  | Msg2.chromeFailed => true
  | Msg2.firefoxFailed => true
  | Msg2.noBrowser => true
  | Msg2.errorConverting _ => true
  | _ => false

/-- Event-level lift of `isFailureMsg`. -/
def isFailureEv (e : Ev) : Bool :=
  match e with
  | Ev.msg m => isFailureMsg m
  | _ => false

/-- Left-to-right check that every PDF write in a trace is preceded by a
creation call for directory `od`; the Boolean argument records whether
such a call has been seen. -/
def writesAfterMkdirs (od : String) : List Ev → Bool → Bool
  | [], _ => true
  | Ev.mkdirs d :: t, seen => writesAfterMkdirs od t (seen || (d == od))
  | Ev.writePdf _ _ :: t, seen => seen && writesAfterMkdirs od t seen
  | Ev.msg _ :: t, seen => writesAfterMkdirs od t seen

/-- A baseline environment for concrete evaluations: Chrome present at
`/usr/bin/google-chrome` and working, Firefox present and working, all
reads and renders succeed, the markdown and template renderers are
injective enough to tell files apart, and the scan finds nothing. -/
def envBase : Env2 where
  pathExists := fun s => s == "/usr/bin/google-chrome"
  chromeOk := true
  firefoxInstalled := true
  firefoxOk := true
  readOk := fun _ => true
  renderOk := fun _ => true
  content := fun p => p
  mdRender := fun s => s
  tplRender := fun t c => t ++ ":" ++ c
  rglob := fun _ => []
  mdImportable := true
  pipInstallOk := true

example :
    convert_md_to_pdf envBase "notes/x.md" "out" =
      ([Ev.mkdirs "out", Ev.writePdf "out/x.pdf" "x:notes/x.md",
        Ev.msg (Msg2.chromeOkMsg "out/x.pdf"),
        Ev.msg (Msg2.convertedMsg "x.md" "out/x.pdf")], true) := by decide

example :
    create_pdf_from_html { envBase with pathExists := fun _ => false } "h" "o.pdf" =
      ([], Except.error (Exn.nameError "shutil")) := rfl

/-! ## Lemmas about pipeline 1 -/

/-- Each matching entry adds exactly one conversion attempt. -/
lemma docx_foldl_attempts (env : Env1) (d : String) :
    ∀ (l : List String) (acc : List Msg1 × Nat × Bool),
      (l.foldl (docxStep env d) acc).2.1 =
        acc.2.1 + l.countP (fun f => pyEndsWith f ".docx") := by
  intro l
  induction l with
  | nil => intro acc; simp
  | cons a l ih =>
    intro acc
    rw [List.foldl_cons, ih, List.countP_cons]
    unfold docxStep
    cases h : pyEndsWith a ".docx" with
    | false => simp [h]
    | true =>
      cases h2 : env.convertOk (pyJoin d a) with
      | false => simp [h, h2]; omega
      | true => simp [h, h2]; omega

/-- The `files_found` flag after the loop is the disjunction of the
initial flag with "some entry matches". -/
lemma docx_foldl_found (env : Env1) (d : String) :
    ∀ (l : List String) (acc : List Msg1 × Nat × Bool),
      (l.foldl (docxStep env d) acc).2.2 =
        (acc.2.2 || l.any (fun f => pyEndsWith f ".docx")) := by
  intro l
  induction l with
  | nil => intro acc; simp
  | cons a l ih =>
    intro acc
    rw [List.foldl_cons, ih, List.any_cons]
    unfold docxStep
    cases h : pyEndsWith a ".docx" with
    | false => simp [h]
    | true =>
      cases h2 : env.convertOk (pyJoin d a) with
      | false => simp [h, h2]
      | true => simp [h, h2]

/-- A loop over a listing without any matching entry leaves the
accumulator unchanged. -/
lemma docx_foldl_nomatch (env : Env1) (d : String) :
    ∀ (l : List String) (acc : List Msg1 × Nat × Bool),
      (∀ f ∈ l, pyEndsWith f ".docx" = false) →
      l.foldl (docxStep env d) acc = acc := by
  intro l
  induction l with
  | nil => intro acc _; rfl
  | cons a l ih =>
    intro acc h
    rw [List.foldl_cons]
    have ha : pyEndsWith a ".docx" = false := h a (List.mem_cons_self a l)
    have hstep : docxStep env d acc a = acc := by unfold docxStep; simp [ha]
    rw [hstep]
    exact ih acc (fun f hf => h f (List.mem_cons_of_mem a hf))

/-- C6 — For every directory listing, pipeline 1 attempts exactly one
conversion per entry whose name ends in `.docx` (no retries), and the
`files_found` flag it computes is true iff that count is positive. -/
theorem C6_attempts_and_found_flag (env : Env1) (dir : String) :
    (convert_docx_to_markdown env dir).2.1 =
      env.listing.countP (fun f => pyEndsWith f ".docx")
    ∧ ((convert_docx_to_markdown env dir).2.2 = true ↔
        0 < env.listing.countP (fun f => pyEndsWith f ".docx")) := by
  have hA := docx_foldl_attempts env dir env.listing ([Msg1.scanning dir], 0, false)
  have hF := docx_foldl_found env dir env.listing ([Msg1.scanning dir], 0, false)
  have hsplit :
      (convert_docx_to_markdown env dir).2.1 =
        (env.listing.foldl (docxStep env dir) ([Msg1.scanning dir], 0, false)).2.1
      ∧ (convert_docx_to_markdown env dir).2.2 =
        (env.listing.foldl (docxStep env dir) ([Msg1.scanning dir], 0, false)).2.2 := by
    unfold convert_docx_to_markdown
    cases hr : (env.listing.foldl (docxStep env dir) ([Msg1.scanning dir], 0, false)).2.2 <;>
      simp [hr]
  constructor
  · rw [hsplit.1, hA]
    simp
  · rw [hsplit.2, hF]
    simp only [Bool.false_or]
    rw [List.any_eq_true, List.countP_pos_iff]

/-- C7 counterexample — for a directory without `.docx` files, the
"not found" message is not the only output: the scanning banner printed
at the top of `convert_docx_to_markdown` (line 29 of
`src/docx_to_md.py`) always precedes it. -/
theorem C7_counterexample :
    convert_docx_to_markdown ⟨true, true, ["a.txt"], fun _ => true⟩ "d" =
      ([Msg1.scanning "d", Msg1.notFound], 0, false)
    ∧ decide ((([Msg1.scanning "d", Msg1.notFound] : List Msg1)) = [Msg1.notFound]) = false := by
  exact ⟨by decide, by decide⟩

/-- C7 amended — when pipeline 1 runs on a directory containing zero
files with the matching `.docx` extension, no conversion is attempted,
and the output consists exactly of the scanning banner followed by the
"not found" message (so the "not found" message is the only output
besides the banner). -/
theorem C7_no_files_amended (env : Env1) (dir : String)
    (h : ∀ f ∈ env.listing, pyEndsWith f ".docx" = false) :
    (convert_docx_to_markdown env dir).2.1 = 0
    ∧ (convert_docx_to_markdown env dir).1 = [Msg1.scanning dir, Msg1.notFound] := by
  have hfold := docx_foldl_nomatch env dir env.listing ([Msg1.scanning dir], 0, false) h
  unfold convert_docx_to_markdown
  rw [hfold]
  exact ⟨rfl, rfl⟩

/-- Witness for the amended C7 at a concrete listing with no matching
entry. -/
theorem C7_no_files_amended_witness :
    (convert_docx_to_markdown ⟨true, true, ["b.txt"], fun _ => true⟩ "w").2.1 = 0
    ∧ (convert_docx_to_markdown ⟨true, true, ["b.txt"], fun _ => true⟩ "w").1 =
        [Msg1.scanning "w", Msg1.notFound] :=
  C7_no_files_amended ⟨true, true, ["b.txt"], fun _ => true⟩ "w" (by decide)

/-! ## Lemmas about pipeline 2 -/

/-- The result component of `create_pdf_from_html`: `ok true` when a
Chrome binary exists and its run succeeds, otherwise the `NameError`
raised by the unimported `shutil` in the Firefox branch. -/
lemma create_pdf_snd (env : Env2) (h o : String) :
    (create_pdf_from_html env h o).2 =
      if ((chrome_paths.find? env.pathExists).isSome && env.chromeOk) then Except.ok true
      else Except.error (Exn.nameError "shutil") := by
  unfold create_pdf_from_html
  cases hf : chrome_paths.find? env.pathExists <;> cases hc : env.chromeOk <;> simp [hf, hc]

/-- `create_pdf_from_html` can never return `False`: it either returns
`True` (Chrome succeeded) or raises the `NameError`. -/
lemma create_pdf_never_false (env : Env2) (h o : String) :
    (create_pdf_from_html env h o).2 = Except.ok true
    ∨ (create_pdf_from_html env h o).2 = Except.error (Exn.nameError "shutil") := by
  rw [create_pdf_snd]
  cases hb : ((chrome_paths.find? env.pathExists).isSome && env.chromeOk) <;> simp [hb]

/-- The success flag of `convert_md_to_pdf` is exactly `fileOk`. -/
lemma convert_snd (env : Env2) (p od : String) :
    (convert_md_to_pdf env p od).2 = fileOk env p := by
  unfold convert_md_to_pdf fileOk
  cases hr : env.readOk p <;> cases hn : env.renderOk p <;>
    cases hf : chrome_paths.find? env.pathExists <;> cases hc : env.chromeOk <;>
    simp [hr, hn, hf, hc, create_pdf_from_html]

/-- Explicit event trace of a fully successful per-file conversion. -/
lemma convert_trace_ok (env : Env2) (p od : String) (h : fileOk env p = true) :
    convert_md_to_pdf env p od =
      ([Ev.mkdirs od, Ev.writePdf (pdfOutPath od p) (renderedHtml env p),
        Ev.msg (Msg2.chromeOkMsg (pdfOutPath od p)),
        Ev.msg (Msg2.convertedMsg (pyBasename p) (pdfOutPath od p))], true) := by
  unfold fileOk at h
  simp only [Bool.and_eq_true, Option.isSome_iff_exists] at h
  obtain ⟨⟨⟨hr, hn⟩, q, hq⟩, hc⟩ := h
  unfold convert_md_to_pdf
  simp [hr, hn, create_pdf_from_html, hq, hc]

/-- A failed per-file conversion always logs the per-file error line:
every failure is an exception caught by the `except Exception` clause of
`convert_md_to_pdf`. -/
lemma convert_mem_error (env : Env2) (p od : String) (h : fileOk env p = false) :
    Ev.msg (Msg2.errorConverting p) ∈ (convert_md_to_pdf env p od).1 := by
  unfold fileOk at h
  unfold convert_md_to_pdf
  cases hr : env.readOk p <;> cases hn : env.renderOk p <;>
    cases hf : chrome_paths.find? env.pathExists <;> cases hc : env.chromeOk <;>
    simp [hr, hn, hf, hc, create_pdf_from_html] <;> simp [hr, hn, hf, hc] at h

/-- Successful conversions counted by the scan loop. -/
lemma scan_foldl_succ (env : Env2) (od : String) :
    ∀ (l : List String) (acc : List Ev × Nat × Nat),
      (l.foldl (scanStep env od) acc).2.1 = acc.2.1 + l.countP (fileOk env) := by
  intro l
  induction l with
  | nil => intro acc; simp
  | cons a l ih =>
    intro acc
    rw [List.foldl_cons, ih, List.countP_cons]
    simp only [scanStep, convert_snd]
    cases h : fileOk env a <;> simp [h] <;> omega

/-- Failed conversions counted by the scan loop. -/
lemma scan_foldl_fail (env : Env2) (od : String) :
    ∀ (l : List String) (acc : List Ev × Nat × Nat),
      (l.foldl (scanStep env od) acc).2.2 =
        acc.2.2 + l.countP (fun p => !(fileOk env p)) := by
  intro l
  induction l with
  | nil => intro acc; simp
  | cons a l ih =>
    intro acc
    rw [List.foldl_cons, ih, List.countP_cons]
    simp only [scanStep, convert_snd]
    cases h : fileOk env a <;> simp [h] <;> omega

/-- Splitting a list by a Boolean predicate accounts for every element
exactly once. -/
lemma countP_bool_split {α : Type} (p : α → Bool) (l : List α) :
    l.countP p + l.countP (fun a => !(p a)) = l.length := by
  induction l with
  | nil => simp
  | cons a l ih => cases h : p a <;> simp [List.countP_cons, h] <;> omega

/-- The two counters of `scan_and_convert` always sum to the number of
files the recursive scan discovered. -/
lemma scan_sum_eq_length (env : Env2) (fp od : String) :
    (scan_and_convert env fp od).2.1 + (scan_and_convert env fp od).2.2 =
      (env.rglob fp).length := by
  have h1 := scan_foldl_succ env od (env.rglob fp)
    ([Ev.msg (Msg2.foundMsg (env.rglob fp).length fp)], 0, 0)
  have h2 := scan_foldl_fail env od (env.rglob fp)
    ([Ev.msg (Msg2.foundMsg (env.rglob fp).length fp)], 0, 0)
  unfold scan_and_convert
  simp only []
  rw [h1, h2]
  simpa using countP_bool_split (fileOk env) (env.rglob fp)

/-- C10 — Invariant of `scan_and_convert`: the returned pair counts the
successful and the failed conversions, the two counters sum to the
number of markdown files discovered by the recursive scan (each
discovered file contributes to exactly one of them), and the printed
summary line carries exactly the returned values. -/
theorem C10_scan_invariant (env : Env2) (fp od : String) :
    (scan_and_convert env fp od).2.1 = (env.rglob fp).countP (fileOk env)
    ∧ (scan_and_convert env fp od).2.2 =
        (env.rglob fp).countP (fun p => !(fileOk env p))
    ∧ (scan_and_convert env fp od).2.1 + (scan_and_convert env fp od).2.2 =
        (env.rglob fp).length
    ∧ ∃ t, (scan_and_convert env fp od).1 =
        t ++ [Ev.msg (Msg2.summary (scan_and_convert env fp od).2.1
          (scan_and_convert env fp od).2.2)] := by
  have h1 := scan_foldl_succ env od (env.rglob fp)
    ([Ev.msg (Msg2.foundMsg (env.rglob fp).length fp)], 0, 0)
  have h2 := scan_foldl_fail env od (env.rglob fp)
    ([Ev.msg (Msg2.foundMsg (env.rglob fp).length fp)], 0, 0)
  refine ⟨?_, ?_, scan_sum_eq_length env fp od, ?_⟩
  · unfold scan_and_convert
    simp only []
    rw [h1]
    simp
  · unfold scan_and_convert
    simp only []
    rw [h2]
    simp
  · exact ⟨((env.rglob fp).foldl (scanStep env od)
      ([Ev.msg (Msg2.foundMsg (env.rglob fp).length fp)], 0, 0)).1, rfl⟩

/-- C2 — Any exception raised during a file's read, HTML rendering or
PDF printing is caught at the per-file boundary of `convert_md_to_pdf`
(which therefore returns `False` rather than propagating), the error is
logged with the file's path, and the batch continues: `scan_and_convert`
still accounts for every discovered file in the pair it returns and
prints. -/
theorem C2_per_file_exception_boundary (env : Env2) (p od : String)
    (h : env.readOk p = false ∨ env.renderOk p = false ∨
      chrome_paths.find? env.pathExists = none ∨ env.chromeOk = false) :
    (convert_md_to_pdf env p od).2 = false
    ∧ Ev.msg (Msg2.errorConverting p) ∈ (convert_md_to_pdf env p od).1
    ∧ ∀ fp, (scan_and_convert env fp od).2.1 + (scan_and_convert env fp od).2.2 =
        (env.rglob fp).length := by
  have hok : fileOk env p = false := by
    unfold fileOk
    rcases h with h | h | h | h <;> simp [h]
  refine ⟨?_, convert_mem_error env p od hok, fun fp => scan_sum_eq_length env fp od⟩
  rw [convert_snd]
  exact hok

/-- An environment in which every file read raises. -/
def envReadFails : Env2 :=
  { envBase with readOk := fun _ => false }

/-- Witness for C2: a concrete file whose read raises is caught, logged
and the batch accounting still holds. -/
theorem C2_per_file_exception_boundary_witness :
    (convert_md_to_pdf envReadFails "a.md" "out").2 = false
    ∧ Ev.msg (Msg2.errorConverting "a.md") ∈ (convert_md_to_pdf envReadFails "a.md" "out").1
    ∧ ∀ fp, (scan_and_convert envReadFails fp "out").2.1 +
        (scan_and_convert envReadFails fp "out").2.2 =
        (envReadFails.rglob fp).length :=
  C2_per_file_exception_boundary envReadFails "a.md" "out" (Or.inl rfl)

/-- Chrome absent from all three probed paths; Firefox installed and
functional. -/
def envNoChrome : Env2 :=
  { envBase with pathExists := fun _ => false }

/-- C1 — code bug.  The spec (and the source's own comment `Try using
Firefox if Chrome failed` and message `Please install Chrome or
Firefox`) intend a Firefox fallback after the Chrome attempt, but
`src/md2pdf.py` never imports `shutil`, so the fallback branch raises
`NameError` at `shutil.which("firefox")` before consulting Firefox:
with no Chrome and a fully working Firefox, `create_pdf_from_html`
raises (empty event trace: no browser invoked, no PDF written, no
message printed) and the file is declared a failure. -/
theorem C1_firefox_fallback_never_attempted :
    envNoChrome.firefoxInstalled = true
    ∧ envNoChrome.firefoxOk = true
    ∧ create_pdf_from_html envNoChrome "h" "out/x.pdf" =
        ([], Except.error (Exn.nameError "shutil"))
    ∧ (convert_md_to_pdf envNoChrome "x.md" "out").2 = false
    ∧ (convert_md_to_pdf envNoChrome "x.md" "out").1.all (fun e => !(isWritePdf e)) = true :=
  ⟨rfl, rfl, rfl, rfl, rfl⟩

/-- Neither browser available. -/
def envNoBrowsers : Env2 :=
  { envBase with
      pathExists := fun _ => false
      firefoxInstalled := false
      firefoxOk := false }

/-- C4 — code bug.  With neither renderer available the file is counted
as failed and no PDF write occurs, as the claim states, but
`create_pdf_from_html` does not return `False` as claimed: because of
the missing `import shutil` it raises `NameError` (caught only in
`convert_md_to_pdf`); in fact `create_pdf_from_html` can never return
`False` in any environment. -/
theorem C4_no_renderer_raises_instead_of_false :
    (convert_md_to_pdf envNoBrowsers "n.md" "out").2 = false
    ∧ (convert_md_to_pdf envNoBrowsers "n.md" "out").1.all (fun e => !(isWritePdf e)) = true
    ∧ (create_pdf_from_html envNoBrowsers "h" (pdfOutPath "out" "n.md")).2 =
        Except.error (Exn.nameError "shutil")
    ∧ ∀ (env : Env2) (h o : String),
        (create_pdf_from_html env h o).2 = Except.ok true
        ∨ (create_pdf_from_html env h o).2 = Except.error (Exn.nameError "shutil") :=
  ⟨rfl, rfl, rfl, create_pdf_never_false⟩

/-- Pipeline 1 with the `pypandoc` library missing but pandoc itself
fine. -/
def env1NoPypandoc : Env1 :=
  ⟨false, true, [], fun _ => true⟩

/-- Pipeline 2 with the markdown/jinja2 dependencies missing and the
automatic `pip install` failing. -/
def env2NoDeps : Env2 :=
  { envBase with
      mdImportable := false
      pipInstallOk := false }

/-- C3 counterexample — exit statuses are not as claimed: pipeline 1
exits non-zero when merely the `pypandoc` binding is missing even though
pandoc itself is reachable, and pipeline 2 exits non-zero (uncaught
`CalledProcessError` from the dependency bootstrap at lines 9 to 16 of
`src/md2pdf.py`) in a run with no per-file conversion failures at all. -/
theorem C3_exit_status_counterexample :
    env1NoPypandoc.pandocOk = true
    ∧ (docx_to_md_main env1NoPypandoc "d").1 = 1
    ∧ decide ((md2pdf_main env2NoDeps "t" "o").1 = 0) = false :=
  ⟨rfl, rfl, rfl⟩

/-- C3 amended — pipeline 1 exits zero exactly when the `pypandoc`
library imports and pandoc is reachable; pipeline 2 exits zero exactly
when its markdown/jinja2 dependencies import or their automatic
installation succeeds; in all such runs the exit status is 0 regardless
of how many per-file conversions failed (the environments quantify over
every pattern of per-file failures, which the exit status never
inspects). -/
theorem C3_exit_status_amended (e1 : Env1) (e2 : Env2) (d t o : String) :
    ((docx_to_md_main e1 d).1 = 0 ↔ (e1.pypandocImportable = true ∧ e1.pandocOk = true))
    ∧ ((md2pdf_main e2 t o).1 = 0 ↔ (e2.mdImportable = true ∨ e2.pipInstallOk = true)) := by
  constructor
  · unfold docx_to_md_main
    cases h1 : e1.pypandocImportable <;> cases h2 : e1.pandocOk <;> simp [h1, h2]
  · unfold md2pdf_main
    cases h1 : e2.mdImportable <;> cases h2 : e2.pipInstallOk <;> simp [h1, h2]

/-! ## Lemmas about directory creation and write ordering (C8) -/

/-- Every per-file conversion performs exactly one `os.makedirs` call. -/
lemma convert_countP_mkdirs (env : Env2) (p od : String) :
    (convert_md_to_pdf env p od).1.countP isMkdirs = 1 := by
  unfold convert_md_to_pdf
  cases hr : env.readOk p <;> cases hn : env.renderOk p <;>
    cases hf : chrome_paths.find? env.pathExists <;> cases hc : env.chromeOk <;>
    simp [hr, hn, hf, hc, create_pdf_from_html, isMkdirs, List.countP_cons, List.countP_nil]

/-- The trace component of one scan iteration appends the per-file
trace. -/
lemma scanStep_fst (env : Env2) (od : String) (acc : List Ev × Nat × Nat) (p : String) :
    (scanStep env od acc p).1 = acc.1 ++ (convert_md_to_pdf env p od).1 := by
  simp only [scanStep]
  cases h : (convert_md_to_pdf env p od).2 <;> simp [h]

/-- The scan loop performs one `os.makedirs` call per file. -/
lemma scan_foldl_mkdirs (env : Env2) (od : String) :
    ∀ (l : List String) (acc : List Ev × Nat × Nat),
      ((l.foldl (scanStep env od) acc).1.countP isMkdirs) =
        acc.1.countP isMkdirs + l.length := by
  intro l
  induction l with
  | nil => intro acc; simp
  | cons a l ih =>
    intro acc
    rw [List.foldl_cons, ih (scanStep env od acc a), scanStep_fst,
      List.countP_append, convert_countP_mkdirs]
    simp only [List.length_cons]
    omega

/-- Once the output directory has been created, a trace can no longer
violate the write-after-creation discipline. -/
lemma wam_true (od : String) : ∀ t : List Ev, writesAfterMkdirs od t true = true := by
  intro t
  induction t with
  | nil => rfl
  | cons e t ih =>
    cases e with
    | mkdirs d => simp [writesAfterMkdirs, ih]
    | writePdf p c => simp [writesAfterMkdirs, ih]
    | msg m => simp [writesAfterMkdirs, ih]

/-- The first event of every per-file conversion is the creation call
for the output directory. -/
lemma convert_fst_head (env : Env2) (p od : String) :
    ∃ rest, (convert_md_to_pdf env p od).1 = Ev.mkdirs od :: rest :=
  ⟨_, rfl⟩

/-- Every per-file trace satisfies the write-after-creation discipline
from any starting state: it begins by creating the output directory. -/
lemma wam_conv (env : Env2) (p od : String) (s : Bool) :
    writesAfterMkdirs od ((convert_md_to_pdf env p od).1) s = true := by
  obtain ⟨rest, hr⟩ := convert_fst_head env p od
  rw [hr]
  simp only [writesAfterMkdirs]
  have : (s || (od == od)) = true := by simp
  rw [this]
  exact wam_true od rest

/-- The discipline is preserved by appending a trace that satisfies it
from every starting state. -/
lemma wam_append_anyTail (od : String) (t2 : List Ev)
    (h2 : ∀ s, writesAfterMkdirs od t2 s = true) :
    ∀ (t1 : List Ev) (s : Bool), writesAfterMkdirs od t1 s = true →
      writesAfterMkdirs od (t1 ++ t2) s = true := by
  intro t1
  induction t1 with
  | nil => intro s _; simpa using h2 s
  | cons e t ih =>
    intro s h1
    cases e with
    | mkdirs d =>
      simp only [List.cons_append, writesAfterMkdirs] at h1 ⊢
      exact ih _ h1
    | writePdf p c =>
      simp only [List.cons_append, writesAfterMkdirs] at h1 ⊢
      rw [Bool.and_eq_true] at h1
      rw [Bool.and_eq_true]
      exact ⟨h1.1, ih s h1.2⟩
    | msg m =>
      simp only [List.cons_append, writesAfterMkdirs] at h1 ⊢
      exact ih _ h1

/-- The scan loop preserves the write-after-creation discipline. -/
lemma wam_foldl (env : Env2) (od : String) :
    ∀ (l : List String) (acc : List Ev × Nat × Nat),
      writesAfterMkdirs od acc.1 false = true →
      writesAfterMkdirs od ((l.foldl (scanStep env od) acc).1) false = true := by
  intro l
  induction l with
  | nil => intro acc h; exact h
  | cons a l ih =>
    intro acc h
    rw [List.foldl_cons]
    apply ih
    rw [scanStep_fst]
    exact wam_append_anyTail od _ (fun s => wam_conv env a od s) acc.1 false h

/-- An environment whose recursive scan finds two markdown files. -/
def envTwoFiles : Env2 :=
  { envBase with rglob := fun _ => ["a/x.md", "b/y.md"] }

/-- C8 counterexample — in a batch of two files the output-directory
creation call (`os.makedirs` at line 245 of `src/md2pdf.py`, inside
`convert_md_to_pdf`) is executed twice, not exactly once per batch. -/
theorem C8_mkdirs_once_counterexample :
    (scan_and_convert envTwoFiles "r" "o").1.countP isMkdirs = 2
    ∧ decide ((scan_and_convert envTwoFiles "r" "o").1.countP isMkdirs = 1) = false := by
  exact ⟨by decide, by decide⟩

/-- C8 amended — the output directory is created idempotently once per
file (at the start of each file's conversion; hence as many creation
calls per batch as there are files, and none for an empty batch), and
every PDF write in the batch trace is preceded by a creation call for
the output directory: no file write ever precedes the existence of the
output directory. -/
theorem C8_mkdirs_per_file_amended (env : Env2) (fp od : String) :
    (scan_and_convert env fp od).1.countP isMkdirs = (env.rglob fp).length
    ∧ writesAfterMkdirs od ((scan_and_convert env fp od).1) false = true := by
  constructor
  · unfold scan_and_convert
    simp only []
    rw [List.countP_append, scan_foldl_mkdirs]
    simp [isMkdirs, List.countP_cons]
  · unfold scan_and_convert
    simp only []
    apply wam_append_anyTail od _ (fun s => by simp [writesAfterMkdirs])
    apply wam_foldl
    simp [writesAfterMkdirs]

/-! ## Basename collisions (C9) -/

/-- C9 — Because pipeline 2 flattens its output into the single output
directory, two scanned markdown files with the same base name derive
the identical PDF path; both conversions succeed (no warning or failure
message anywhere in the trace, failure counter zero), and replaying the
batch trace on a file system shows the later file's PDF as the final
content at that path: the second conversion silently overwrites the
first. -/
theorem C9_basename_collision_overwrite (env : Env2) (fp od p1 p2 : String)
    (hscan : env.rglob fp = [p1, p2])
    (hbase : pyBasename p1 = pyBasename p2)
    (h1 : fileOk env p1 = true) (h2 : fileOk env p2 = true) :
    pdfOutPath od p1 = pdfOutPath od p2
    ∧ (scan_and_convert env fp od).2.1 = 2
    ∧ (scan_and_convert env fp od).2.2 = 0
    ∧ applyFs ((scan_and_convert env fp od).1) (fun _ => none) (pdfOutPath od p1) =
        some (renderedHtml env p2)
    ∧ (scan_and_convert env fp od).1.all (fun e => !(isFailureEv e)) = true := by
  have hpath : pdfOutPath od p1 = pdfOutPath od p2 := by
    unfold pdfOutPath
    rw [hbase]
  have hc1 := convert_trace_ok env p1 od h1
  have hc2 := convert_trace_ok env p2 od h2
  have hscanEq : scan_and_convert env fp od =
      ([Ev.msg (Msg2.foundMsg 2 fp),
        Ev.mkdirs od, Ev.writePdf (pdfOutPath od p1) (renderedHtml env p1),
        Ev.msg (Msg2.chromeOkMsg (pdfOutPath od p1)),
        Ev.msg (Msg2.convertedMsg (pyBasename p1) (pdfOutPath od p1)),
        Ev.mkdirs od, Ev.writePdf (pdfOutPath od p2) (renderedHtml env p2),
        Ev.msg (Msg2.chromeOkMsg (pdfOutPath od p2)),
        Ev.msg (Msg2.convertedMsg (pyBasename p2) (pdfOutPath od p2)),
        Ev.msg (Msg2.summary 2 0)], 2, 0) := by
    unfold scan_and_convert
    rw [hscan]
    simp only [List.foldl_cons, List.foldl_nil, List.length_cons, List.length_nil]
    simp only [scanStep, hc1, hc2]
    simp
  refine ⟨hpath, ?_, ?_, ?_, ?_⟩
  · rw [hscanEq]
  · rw [hscanEq]
  · rw [hscanEq, hpath]
    simp only [applyFs, List.foldl_cons, List.foldl_nil, applyEv]
    simp
  · rw [hscanEq]
    simp [isFailureEv, isFailureMsg]

/-- An environment whose scan finds two files with the same base name
in different subdirectories, with distinct contents. -/
def envC9 : Env2 :=
  { envBase with rglob := fun _ => ["a/n.md", "b/n.md"] }

/-! ## Path-derivation lemmas (C5) -/

/-- Two strings with the same character data are equal. -/
lemma str_ext (a b : String) (h : a.data = b.data) : a = b := by
  cases a with
  | mk l1 =>
    cases b with
    | mk l2 =>
      simp only [] at h
      rw [h]

/-- `takeWhile` consumes a whole prefix whose elements all satisfy the
predicate and stops at the first element that does not. -/
lemma takeWhile_append_stop {α : Type} (p : α → Bool) (l : List α) (c : α) (t : List α)
    (hl : ∀ x ∈ l, p x = true) (hc : p c = false) :
    (l ++ c :: t).takeWhile p = l := by
  induction l with
  | nil => simp [List.takeWhile_cons, hc]
  | cons a l ih =>
    have ha : p a = true := hl a (List.mem_cons_self a l)
    simp [List.takeWhile_cons, ha,
      ih (fun x hx => hl x (List.mem_cons_of_mem a hx))]

/-- Dropping a prefix together with its delimiter. -/
lemma drop_append_cons {α : Type} (l : List α) (c : α) (t : List α) :
    (l ++ c :: t).drop (l.length + 1) = t := by
  induction l with
  | nil => rfl
  | cons a l ih =>
    simp only [List.length_cons, List.cons_append, List.drop_succ_cons]
    exact ih

/-- `os.path.splitext` root of `stem + "." + ext` is `stem`, for a
nonempty dot-free stem and a dot-free extension body. -/
lemma splitextRootCs_stem (stem ebody : List Char)
    (hne : stem ≠ []) (hstem : ∀ c ∈ stem, c ≠ '.') (hext : ∀ c ∈ ebody, c ≠ '.') :
    splitextRootCs (stem ++ '.' :: ebody) = stem := by
  unfold splitextRootCs
  have hrev : (stem ++ '.' :: ebody).reverse = ebody.reverse ++ '.' :: stem.reverse := by
    simp
  rw [hrev]
  have htw : (ebody.reverse ++ '.' :: stem.reverse).takeWhile (fun c => c != '.') =
      ebody.reverse := by
    apply takeWhile_append_stop
    · intro x hx
      simp [bne_iff_ne, hext x (List.mem_reverse.mp hx)]
    · simp
  rw [htw]
  have hlen : ¬ (ebody.reverse.length = (ebody.reverse ++ '.' :: stem.reverse).length) := by
    simp only [List.length_append, List.length_reverse, List.length_cons]
    omega
  rw [if_neg hlen]
  have hdrop : (ebody.reverse ++ '.' :: stem.reverse).drop (ebody.reverse.length + 1) =
      stem.reverse := drop_append_cons _ _ _
  rw [hdrop]
  have hany : stem.reverse.any (fun c => c != '.') = true := by
    rw [List.any_eq_true]
    obtain ⟨a, ha⟩ : ∃ a, a ∈ stem := by
      cases stem with
      | nil => exact absurd rfl hne
      | cons a l => exact ⟨a, List.mem_cons_self a l⟩
    exact ⟨a, List.mem_reverse.mpr ha, by simp [bne_iff_ne, hstem a ha]⟩
  rw [if_pos hany]
  simp

/-- String-level version of `splitextRootCs_stem`. -/
lemma splitextRootStr_stem (sStem : String) (ebody : List Char)
    (hne : sStem.data ≠ []) (hstem : ∀ c ∈ sStem.data, c ≠ '.')
    (hext : ∀ c ∈ ebody, c ≠ '.') (s : String) (hs : s.data = sStem.data ++ '.' :: ebody) :
    splitextRootStr s = sStem := by
  unfold splitextRootStr
  rw [hs, splitextRootCs_stem sStem.data ebody hne hstem hext]

/-- A nonempty slash-free character list does not start with `/`. -/
lemma head?_append_ne_slash (l m : List Char) (hne : l ≠ []) (h : ∀ c ∈ l, c ≠ '/') :
    (l ++ m).head? ≠ some '/' := by
  cases l with
  | nil => exact absurd rfl hne
  | cons a t =>
    simp only [List.cons_append, List.head?_cons, ne_eq, Option.some.injEq]
    exact h a (List.mem_cons_self a t)

/-- `os.path.join` inserts exactly one separator when the left part is
nonempty without a trailing slash and the right part does not start
with a slash. -/
lemma pyJoin_sep (a b : String) (ha : a.data ≠ []) (hlast : a.data.getLast? ≠ some '/')
    (hb : b.data.head? ≠ some '/') :
    pyJoin a b = String.mk (a.data ++ '/' :: b.data) := by
  unfold pyJoin
  rw [if_neg hb, if_neg ha, if_neg hlast]

/-- C5 — Output-path derivation.  Pipeline 1 maps a file named
`stem.docx` in directory `d` to `d/stem.md` (same directory, extension
replaced); pipeline 2 maps every scanned markdown path whose base name
is `stem.md` — at any depth under the scan root — to `od/stem.pdf`
directly in the fixed output directory, discarding the input's
subdirectory structure. -/
theorem C5_output_path_derivation (d od sStem : String)
    (hne : sStem.data ≠ [])
    (hdot : ∀ c ∈ sStem.data, c ≠ '.')
    (hslash : ∀ c ∈ sStem.data, c ≠ '/')
    (hd1 : d.data ≠ []) (hd2 : d.data.getLast? ≠ some '/')
    (ho1 : od.data ≠ []) (ho2 : od.data.getLast? ≠ some '/') :
    docxOutPath d (sStem ++ ".docx") = d ++ "/" ++ sStem ++ ".md"
    ∧ ∀ p : String, pyBasename p = sStem ++ ".md" →
        pdfOutPath od p = od ++ "/" ++ sStem ++ ".pdf" := by
  have hmd : (sStem ++ ".md").data = sStem.data ++ ['.', 'm', 'd'] := by
    rw [String.data_append]
  have hdocx : (sStem ++ ".docx").data = sStem.data ++ ['.', 'd', 'o', 'c', 'x'] := by
    rw [String.data_append]
  have hsplit1 : splitextRootStr (sStem ++ ".docx") = sStem :=
    splitextRootStr_stem sStem ['d', 'o', 'c', 'x'] hne hdot (by decide) _ hdocx
  have hsplit2 : splitextRootStr (sStem ++ ".md") = sStem :=
    splitextRootStr_stem sStem ['m', 'd'] hne hdot (by decide) _ hmd
  constructor
  · unfold docxOutPath
    rw [hsplit1]
    rw [pyJoin_sep d (sStem ++ ".md") hd1 hd2 (by
      rw [hmd]
      exact head?_append_ne_slash sStem.data _ hne hslash)]
    apply str_ext
    simp [String.data_append]
  · intro p hp
    unfold pdfOutPath
    rw [hp, hsplit2]
    rw [pyJoin_sep od (sStem ++ ".pdf") ho1 ho2 (by
      rw [String.data_append]
      exact head?_append_ne_slash sStem.data _ hne hslash)]
    apply str_ext
    simp [String.data_append]

/-- Witness for C5 at `docs/report.docx` and `notes/report.md`. -/
theorem C5_output_path_derivation_witness :
    docxOutPath "docs" ("report" ++ ".docx") = "docs" ++ "/" ++ "report" ++ ".md"
    ∧ pdfOutPath "out" "notes/report.md" = "out" ++ "/" ++ "report" ++ ".pdf" := by
  have h := C5_output_path_derivation "docs" "out" "report"
    (by decide) (by decide) (by decide) (by decide) (by decide) (by decide) (by decide)
  exact ⟨h.1, h.2 "notes/report.md" (by decide)⟩

/-- Witness for C9 at two concrete colliding files. -/
theorem C9_basename_collision_overwrite_witness :
    pdfOutPath "out" "a/n.md" = pdfOutPath "out" "b/n.md"
    ∧ (scan_and_convert envC9 "r" "out").2.1 = 2
    ∧ (scan_and_convert envC9 "r" "out").2.2 = 0
    ∧ applyFs ((scan_and_convert envC9 "r" "out").1) (fun _ => none)
        (pdfOutPath "out" "a/n.md") = some (renderedHtml envC9 "b/n.md")
    ∧ (scan_and_convert envC9 "r" "out").1.all (fun e => !(isFailureEv e)) = true :=
  C9_basename_collision_overwrite envC9 "r" "out" "a/n.md" "b/n.md" rfl rfl rfl rfl
